import Mathlib

/-!
Verification of the Workspace Provisioning & Lifecycle Controller of the
open-web-agent repository.

The container-runtime control plane (dockerode) is modelled as an explicit
state `St` holding the images, containers, networks and volumes that exist,
plus a ghost trace of every control-plane call that was attempted and the
workspace record's status field.  Every fallible runtime call takes a
`Bool` fault flag from a `Faults` schedule describing which calls of the
run fail with a generic runtime error; a call on a missing resource fails
with a not-found error on its own.  The functions `createWorkspaceContainer`,
`stopWorkspaceContainer`, `startWorkspaceContainer`, `removeWorkspaceContainer`
and `cleanupWorkspace` are translated from src/src/lib/docker.ts, the
`postHandler` from the workspaces POST route, and the readiness probe from
the session route.
-/

namespace OWA

/-- Lifecycle status values stored in the workspace record
(source: the status strings written by the workspaces POST route). -/
inductive WsStatus where
  | pending
  | starting
  | running
  | stopped
  | error
deriving Repr, DecidableEq

/-- Errors returned by the container runtime: a resource that does not
exist (HTTP 404 from the engine) or any other engine failure. -/
inductive DockerErr where
  | notFound
  | generic
deriving Repr, DecidableEq

/-- One attempted control-plane call (or record-store status write),
recorded in the ghost trace in the order the calls are issued. -/
inductive Ev where
  | ensureImage (img : String)
  | createVolume (name : String)
  | createNetwork (name : String)
  | createContainer (name : String)
  | startContainer (name : String)
  | waitContainer (name : String)
  | removeContainer (name : String)
  | stopContainer (name : String)
  | removeNetwork (name : String)
  | removeVolume (name : String)
  | connectNetwork (net ctr : String)
  | statusWrite (st : WsStatus)
deriving Repr, DecidableEq

/-- A container known to the runtime: its name, image, the networks it is
attached to, the volumes bound into it, its labels, and whether it runs. -/
structure Container where
  name : String
  image : String
  networks : List String
  binds : List String
  env : List String
  labels : List (String × String)
  running : Bool
deriving Repr, DecidableEq

/-- The modelled world: the runtime's resources, the ghost trace of
attempted calls, and the workspace record's status field. -/
structure St where
  images : List String
  containers : List Container
  networks : List String
  volumes : List String
  events : List Ev
  wsStatus : Option WsStatus
deriving Repr, DecidableEq

/-- Fault schedule for one run: which control-plane call sites fail with a
generic runtime error, and the exit code the init container's wait returns. -/
structure Faults where
  pullGit : Bool
  pullCodeServer : Bool
  pullOpencode : Bool
  createDataVolume : Bool
  createOpencodeVolume : Bool
  createNet : Bool
  createInit : Bool
  startInit : Bool
  initExitCode : Nat
  removeInitAfterClone : Bool
  createCodeServer : Bool
  createOpencode : Bool
  connectCodeServer : Bool
  connectOpencode : Bool
  startCodeServer : Bool
  startOpencode : Bool
  stopCodeServer : Bool
  stopOpencode : Bool
  removeCodeServer : Bool
  removeOpencode : Bool
  cleanupRemoveInit : Bool
  cleanupRemoveNet : Bool
  cleanupRemoveDataVolume : Bool
  cleanupRemoveOpencodeVolume : Bool
deriving Repr, DecidableEq

/-- The fault-free schedule: every runtime call succeeds and the init
container exits with code 0. -/
def noFaults : Faults :=
  { pullGit := false, pullCodeServer := false, pullOpencode := false
    createDataVolume := false, createOpencodeVolume := false
    createNet := false, createInit := false, startInit := false
    initExitCode := 0, removeInitAfterClone := false
    createCodeServer := false, createOpencode := false
    connectCodeServer := false, connectOpencode := false
    startCodeServer := false, startOpencode := false
    stopCodeServer := false, stopOpencode := false
    removeCodeServer := false, removeOpencode := false
    cleanupRemoveInit := false, cleanupRemoveNet := false
    cleanupRemoveDataVolume := false, cleanupRemoveOpencodeVolume := false }

/-- Append one attempted call to the ghost trace. -/
def recordEv (e : Ev) (s : St) : St :=
  { s with events := s.events ++ [e] }

/-- Look a container up by name. -/
def findContainer (name : String) (s : St) : Option Container :=
  s.containers.find? (fun c => c.name == name)

/-- Apply an update to the container of the given name, if present. -/
def updateContainer (name : String) (g : Container → Container) (s : St) : St :=
  { s with containers := s.containers.map (fun c => if c.name == name then g c else c) }

/-- Model of `pullImageIfNeeded` (docker.ts lines 11-47): list the image,
skip the pull when it is already present, otherwise pull (which can fail). -/
def pullImageIfNeeded (img : String) (fault : Bool) (s : St) :
    Except DockerErr Unit × St :=
  let s := recordEv (.ensureImage img) s
  if img ∈ s.images then (.ok (), s)
  else if fault then (.error .generic, s)
  else (.ok (), { s with images := s.images ++ [img] })

/-- Model of `docker.createVolume`: creating an already-existing volume
name succeeds and leaves it in place. -/
def createVolumeP (name : String) (fault : Bool) (s : St) :
    Except DockerErr Unit × St :=
  let s := recordEv (.createVolume name) s
  if fault then (.error .generic, s)
  else if name ∈ s.volumes then (.ok (), s)
  else (.ok (), { s with volumes := s.volumes ++ [name] })

/-- Model of `docker.createNetwork`. -/
def createNetworkP (name : String) (fault : Bool) (s : St) :
    Except DockerErr Unit × St :=
  let s := recordEv (.createNetwork name) s
  if fault then (.error .generic, s)
  else (.ok (), { s with networks := s.networks ++ [name] })

/-- Model of `docker.createContainer`: fails on an existing name (engine
name conflict), otherwise registers the container in stopped state. -/
def createContainerP (c : Container) (fault : Bool) (s : St) :
    Except DockerErr Unit × St :=
  let s := recordEv (.createContainer c.name) s
  if fault then (.error .generic, s)
  else if (findContainer c.name s).isSome then (.error .generic, s)
  else (.ok (), { s with containers := s.containers ++ [{ c with running := false }] })

/-- Model of `container.start()`. -/
def startContainerP (name : String) (fault : Bool) (s : St) :
    Except DockerErr Unit × St :=
  let s := recordEv (.startContainer name) s
  if fault then (.error .generic, s)
  else if (findContainer name s).isSome then
    (.ok (), updateContainer name (fun c => { c with running := true }) s)
  else (.error .notFound, s)

/-- Model of `container.stop()`. -/
def stopContainerP (name : String) (fault : Bool) (s : St) :
    Except DockerErr Unit × St :=
  let s := recordEv (.stopContainer name) s
  if fault then (.error .generic, s)
  else if (findContainer name s).isSome then
    (.ok (), updateContainer name (fun c => { c with running := false }) s)
  else (.error .notFound, s)

/-- Model of `container.wait()`: resolves with the exit code taken from
the fault schedule. -/
def waitContainerP (name : String) (code : Nat) (s : St) :
    Except DockerErr Nat × St :=
  let s := recordEv (.waitContainer name) s
  if (findContainer name s).isSome then (.ok code, s)
  else (.error .notFound, s)

/-- Model of `container.remove({ force: true })`. -/
def removeContainerP (name : String) (fault : Bool) (s : St) :
    Except DockerErr Unit × St :=
  let s := recordEv (.removeContainer name) s
  if fault then (.error .generic, s)
  else if (findContainer name s).isSome then
    (.ok (), { s with containers := s.containers.filter (fun c => !(c.name == name)) })
  else (.error .notFound, s)

/-- Model of `network.remove()`: the engine refuses to remove a network
that still has containers attached. -/
def removeNetworkP (name : String) (fault : Bool) (s : St) :
    Except DockerErr Unit × St :=
  let s := recordEv (.removeNetwork name) s
  if fault then (.error .generic, s)
  else if name ∉ s.networks then (.error .notFound, s)
  else if ∃ c ∈ s.containers, name ∈ c.networks then (.error .generic, s)
  else (.ok (), { s with networks := s.networks.filter (fun n => !(n == name)) })

/-- Model of `volume.remove()`: the engine refuses to remove a volume
still bound into an existing container. -/
def removeVolumeP (name : String) (fault : Bool) (s : St) :
    Except DockerErr Unit × St :=
  let s := recordEv (.removeVolume name) s
  if fault then (.error .generic, s)
  else if name ∉ s.volumes then (.error .notFound, s)
  else if ∃ c ∈ s.containers, name ∈ c.binds then (.error .generic, s)
  else (.ok (), { s with volumes := s.volumes.filter (fun n => !(n == name)) })

/-- Model of `network.connect({ Container: name })` on the shared
proxy-facing network. -/
def connectNetworkP (net ctr : String) (fault : Bool) (s : St) :
    Except DockerErr Unit × St :=
  let s := recordEv (.connectNetwork net ctr) s
  if fault then (.error .generic, s)
  else if (findContainer ctr s).isSome then
    (.ok (), updateContainer ctr (fun c => { c with networks := c.networks ++ [net] }) s)
  else (.error .notFound, s)

/-- Record-store status write (`prisma.workspace.update`/`create` with a
`status` field), recorded in the same trace. -/
def dbSetStatus (st : WsStatus) (s : St) : St :=
  { recordEv (.statusWrite st) s with wsStatus := some st }

/-! ### Names, images and routing labels (docker.ts lines 58-84, 302-309, 361-385) -/

/-- Image used by the one-shot clone container. -/
def gitImage : String := "alpine/git:latest"

/-- Image of the editor service. -/
def codeServerImage : String := "codercom/code-server:latest"

/-- Image of the agent service. -/
def opencodeImage : String := "ghcr.io/anomalyco/opencode:0.0.0-beta-202601311004"

/-- The shared proxy-facing network every workspace's service containers
are attached to. -/
def mainNetwork : String := "open-web-agent-2_web"

/-- Name of the isolated per-workspace network. -/
def networkNameOf (workspaceId : String) : String := "workspace-" ++ workspaceId

/-- Name of the primary data volume. -/
def volumeNameOf (workspaceId : String) : String := "workspace-" ++ workspaceId ++ "-data"

/-- Name of the agent-state (conversation history) volume. -/
def opencodeVolumeOf (workspaceId : String) : String := "workspace-" ++ workspaceId ++ "-opencode"

/-- Name of the one-shot init container. -/
def initNameOf (workspaceId : String) : String := "init-" ++ workspaceId

/-- Name of the editor-service container. -/
def codeServerNameOf (workspaceId : String) : String := "code-server-" ++ workspaceId

/-- Name of the agent-service container. -/
def opencodeNameOf (workspaceId : String) : String := "opencode-" ++ workspaceId

/-- Routing labels attached to the editor-service container
(docker.ts lines 302-309). -/
def codeServerLabels (workspaceId domain : String) : List (String × String) :=
  [("traefik.enable", "true"),
   ("traefik.docker.network", mainNetwork),
   ("traefik.http.routers.vscode-" ++ workspaceId ++ ".rule",
     "Host(`vscode-" ++ workspaceId ++ "." ++ domain ++ "`)"),
   ("traefik.http.services.vscode-" ++ workspaceId ++ ".loadbalancer.server.port", "8443"),
   ("traefik.http.routers.vscode-" ++ workspaceId ++ ".entrypoints", "web"),
   ("workspace.id", workspaceId)]

/-- Routing labels attached to the agent-service container
(docker.ts lines 361-385): a router for the interactive port 3001, a
router for the preview port 3000, and a response-header middleware that
clears the frame-blocking headers, attached to the preview router. -/
def opencodeLabels (workspaceId domain : String) : List (String × String) :=
  [("traefik.enable", "true"),
   ("traefik.docker.network", mainNetwork),
   ("traefik.http.routers.opencode-" ++ workspaceId ++ ".rule",
     "Host(`opencode-" ++ workspaceId ++ "." ++ domain ++ "`)"),
   ("traefik.http.routers.opencode-" ++ workspaceId ++ ".service",
     "opencode-" ++ workspaceId),
   ("traefik.http.routers.opencode-" ++ workspaceId ++ ".entrypoints", "web"),
   ("traefik.http.services.opencode-" ++ workspaceId ++ ".loadbalancer.server.port", "3001"),
   ("traefik.http.routers.preview-" ++ workspaceId ++ ".rule",
     "Host(`preview-" ++ workspaceId ++ "." ++ domain ++ "`)"),
   ("traefik.http.routers.preview-" ++ workspaceId ++ ".service",
     "preview-" ++ workspaceId),
   ("traefik.http.routers.preview-" ++ workspaceId ++ ".entrypoints", "web"),
   ("traefik.http.services.preview-" ++ workspaceId ++ ".loadbalancer.server.port", "3000"),
   ("traefik.http.middlewares.preview-headers-" ++ workspaceId ++
      ".headers.customResponseHeaders.X-Frame-Options", ""),
   ("traefik.http.middlewares.preview-headers-" ++ workspaceId ++
      ".headers.customResponseHeaders.Content-Security-Policy", ""),
   ("traefik.http.routers.preview-" ++ workspaceId ++ ".middlewares",
     "preview-headers-" ++ workspaceId),
   ("workspace.id", workspaceId)]

/-! ### Provider, model and skill records and the synthesized configuration
(docker.ts lines 113-211, 312-324) -/

/-- One enabled model descriptor of a provider, as fetched for
provisioning (the query already filters on `isEnabled`). -/
structure LLMModel where
  modelId : String
  isDefault : Bool
deriving Repr, DecidableEq

/-- One enabled provider record of the owner, as fetched for provisioning
(only the fields the provisioning code reads are modelled). -/
structure Provider where
  providerId : String
  isDefault : Bool
  envVarName : Option String
  apiKey : Option String
  models : List LLMModel
deriving Repr, DecidableEq

/-- A skill record: a name and a document body to materialize into the
agent container's configuration directory. -/
structure Skill where
  name : String
  content : String
deriving Repr, DecidableEq

/-- The parts of the synthesized `opencode.json` configuration artifact the
claims are about: the optional default-model reference and the
enabled/disabled provider identifier lists. -/
structure OpencodeConfig where
  model : Option String
  enabled_providers : List String
  disabled_providers : List String
deriving Repr, DecidableEq

/-- JavaScript `toLowerCase` on (ASCII) provider identifiers, modelled
characterwise. -/
def strToLower (s : String) : String := ⟨s.data.map Char.toLower⟩

/-- Provider identifiers the synthesizer explicitly disables when they are
not among the enabled ones (docker.ts line 202). -/
def allPossibleProviders : List String :=
  ["openai", "anthropic", "google", "groq", "openrouter", "mistral",
   "together", "deepseek", "xai", "ollama", "lmstudio"]

/-- Synthesis of the configuration artifact (docker.ts lines 147-204):
the first provider marked default is looked up with `find`, then the
first of its models marked default; when both exist the `model` field is
set to the `<provider>/<model>` reference. -/
def buildOpencodeConfig (providers : List Provider) : OpencodeConfig :=
  let defaultProvider := providers.find? (fun p => p.isDefault)
  let defaultModel := defaultProvider.bind (fun p => p.models.find? (fun m => m.isDefault))
  let model :=
    match defaultProvider, defaultModel with
    | some p, some m => some (strToLower p.providerId ++ "/" ++ m.modelId)
    | _, _ => none
  let enabled := providers.map (fun p => strToLower p.providerId)
  { model := model
    enabled_providers := enabled
    disabled_providers :=
      if providers.isEmpty then []
      else allPossibleProviders.filter (fun p => !(enabled.contains p)) }

/-- Environment variables of the agent-service container
(docker.ts lines 312-324): the upstream token as both GITHUB_TOKEN and
GH_TOKEN when supplied, then one variable per provider that has both an
apiKey and an envVarName. -/
def opencodeEnvOf (githubToken : Option String) (providers : List Provider) : List String :=
  (match githubToken with
   | some t => ["GITHUB_TOKEN=" ++ t, "GH_TOKEN=" ++ t]
   | none => []) ++
  providers.filterMap (fun p =>
    match p.apiKey, p.envVarName with
    | some k, some v => some (v ++ "=" ++ k)
    | _, _ => none)

/-! ### The clone URL (docker.ts lines 72-75) -/

/-- JavaScript `String.prototype.replace` with a string pattern: replace
the first occurrence of the pattern, scanning left to right; when the
pattern does not occur the string is unchanged. -/
def replaceFirstList (pat repl : List Char) : List Char → List Char
  | [] => if pat = [] then repl else []
  | c :: rest =>
    if pat.isPrefixOf (c :: rest) then repl ++ (c :: rest).drop pat.length
    else c :: replaceFirstList pat repl rest

/-- String wrapper of `replaceFirstList`. -/
def jsReplaceFirst (s pat repl : String) : String :=
  ⟨replaceFirstList pat.data repl.data s.data⟩

/-- The clone URL (docker.ts lines 72-75): when a token is supplied the
literal "https://" is replaced (first occurrence) by "https://<token>@". -/
def repoUrlWithToken (githubRepo : String) (githubToken : Option String) : String :=
  match githubToken with
  | some t => jsReplaceFirst githubRepo "https://" ("https://" ++ t ++ "@")
  | none => githubRepo

/-! ### Container specifications -/

/-- Specification of the one-shot init container
(docker.ts lines 214-232); it runs on the default bridge network. -/
def initContainerSpec (workspaceId : String) : Container :=
  { name := initNameOf workspaceId
    image := gitImage
    networks := ["bridge"]
    binds := [volumeNameOf workspaceId]
    env := []
    labels := [("workspace.id", workspaceId), ("workspace.type", "init")]
    running := false }

/-- Specification of the editor-service container
(docker.ts lines 275-310). -/
def codeServerSpec (workspaceId domain : String) : Container :=
  { name := codeServerNameOf workspaceId
    image := codeServerImage
    networks := [networkNameOf workspaceId]
    binds := [volumeNameOf workspaceId]
    env := ["TZ=UTC"]
    labels := codeServerLabels workspaceId domain
    running := false }

/-- Specification of the agent-service container
(docker.ts lines 328-386). -/
def opencodeSpec (workspaceId domain : String) (env : List String) : Container :=
  { name := opencodeNameOf workspaceId
    image := opencodeImage
    networks := [networkNameOf workspaceId]
    binds := [volumeNameOf workspaceId, opencodeVolumeOf workspaceId]
    env := env
    labels := opencodeLabels workspaceId domain
    running := false }

/-! ### The provisioning and lifecycle functions (docker.ts lines 58-507) -/

/-- Input of `createWorkspaceContainer`, with the provider and skill
records already fetched (the source reads them from the record store). -/
structure WorkspaceContainerConfig where
  workspaceId : String
  githubRepo : String
  githubBranch : String
  githubToken : Option String
  skills : List Skill
  providers : List Provider
  domain : String
deriving Repr, DecidableEq

/-- Handles returned on success (docker.ts lines 401-406). -/
structure Handles where
  codeServerContainerId : String
  opencodeContainerId : String
  networkName : String
  volumeName : String
deriving Repr, DecidableEq

/-- Errors `createWorkspaceContainer` re-raises: a runtime error, or the
clone failure raised on a nonzero init exit code. -/
inductive CreateErr where
  | docker (e : DockerErr)
  | cloneFailed (code : Nat)
deriving Repr, DecidableEq

/-- Result of the lifecycle operations (`{ success: true }`). -/
structure LifecycleResult where
  success : Bool
deriving Repr, DecidableEq

/-- Model of `cleanupWorkspace` (docker.ts lines 474-507): best-effort
removal of the init container, then the isolated network, then the data
volume, then the agent-state volume; every error is swallowed. -/
def cleanupWorkspace (workspaceId : String) (f : Faults) (s : St) : St :=
  let s1 := (removeContainerP (initNameOf workspaceId) f.cleanupRemoveInit s).2
  let s2 := (removeNetworkP (networkNameOf workspaceId) f.cleanupRemoveNet s1).2
  let s3 := (removeVolumeP (volumeNameOf workspaceId) f.cleanupRemoveDataVolume s2).2
  (removeVolumeP (opencodeVolumeOf workspaceId) f.cleanupRemoveOpencodeVolume s3).2

/-- First error among the three joined pull results (`Promise.all` with
every promise already settled in the model: each pull is attempted). -/
def firstErr3 (r1 r2 r3 : Except DockerErr Unit) : Option DockerErr :=
  match r1, r2, r3 with
  | .error e, _, _ => some e
  | _, .error e, _ => some e
  | _, _, .error e => some e
  | _, _, _ => none

/-- Model of `createWorkspaceContainer` (docker.ts lines 58-417).  The
`catch` block runs `cleanupWorkspace` (which never raises) and re-raises
the original error; in the model every failing step routes through it. -/
def createWorkspaceContainer (cfg : WorkspaceContainerConfig) (f : Faults) (s : St) :
    Except CreateErr Handles × St :=
  let workspaceId := cfg.workspaceId
  let p1 := pullImageIfNeeded gitImage f.pullGit s
  let p2 := pullImageIfNeeded codeServerImage f.pullCodeServer p1.2
  let p3 := pullImageIfNeeded opencodeImage f.pullOpencode p2.2
  match firstErr3 p1.1 p2.1 p3.1 with
  | some e => (.error (.docker e), cleanupWorkspace workspaceId f p3.2)
  | none =>
  let r4 := createVolumeP (volumeNameOf workspaceId) f.createDataVolume p3.2
  match r4.1 with
  | .error e => (.error (.docker e), cleanupWorkspace workspaceId f r4.2)
  | .ok _ =>
  let r5 := createVolumeP (opencodeVolumeOf workspaceId) f.createOpencodeVolume r4.2
  match r5.1 with
  | .error e => (.error (.docker e), cleanupWorkspace workspaceId f r5.2)
  | .ok _ =>
  let r6 := createNetworkP (networkNameOf workspaceId) f.createNet r5.2
  match r6.1 with
  | .error e => (.error (.docker e), cleanupWorkspace workspaceId f r6.2)
  | .ok _ =>
  let r7 := createContainerP (initContainerSpec workspaceId) f.createInit r6.2
  match r7.1 with
  | .error e => (.error (.docker e), cleanupWorkspace workspaceId f r7.2)
  | .ok _ =>
  let r8 := startContainerP (initNameOf workspaceId) f.startInit r7.2
  match r8.1 with
  | .error e => (.error (.docker e), cleanupWorkspace workspaceId f r8.2)
  | .ok _ =>
  let r9 := waitContainerP (initNameOf workspaceId) f.initExitCode r8.2
  match r9.1 with
  | .error e => (.error (.docker e), cleanupWorkspace workspaceId f r9.2)
  | .ok code =>
  if code ≠ 0 then (.error (.cloneFailed code), cleanupWorkspace workspaceId f r9.2)
  else
  let r10 := removeContainerP (initNameOf workspaceId) f.removeInitAfterClone r9.2
  match r10.1 with
  | .error e => (.error (.docker e), cleanupWorkspace workspaceId f r10.2)
  | .ok _ =>
  let r11 := createContainerP (codeServerSpec workspaceId cfg.domain) f.createCodeServer r10.2
  match r11.1 with
  | .error e => (.error (.docker e), cleanupWorkspace workspaceId f r11.2)
  | .ok _ =>
  let r12 := createContainerP
      (opencodeSpec workspaceId cfg.domain (opencodeEnvOf cfg.githubToken cfg.providers))
      f.createOpencode r11.2
  match r12.1 with
  | .error e => (.error (.docker e), cleanupWorkspace workspaceId f r12.2)
  | .ok _ =>
  let r13 := connectNetworkP mainNetwork (codeServerNameOf workspaceId) f.connectCodeServer r12.2
  match r13.1 with
  | .error e => (.error (.docker e), cleanupWorkspace workspaceId f r13.2)
  | .ok _ =>
  let r14 := connectNetworkP mainNetwork (opencodeNameOf workspaceId) f.connectOpencode r13.2
  match r14.1 with
  | .error e => (.error (.docker e), cleanupWorkspace workspaceId f r14.2)
  | .ok _ =>
  let r15 := startContainerP (codeServerNameOf workspaceId) f.startCodeServer r14.2
  match r15.1 with
  | .error e => (.error (.docker e), cleanupWorkspace workspaceId f r15.2)
  | .ok _ =>
  let r16 := startContainerP (opencodeNameOf workspaceId) f.startOpencode r15.2
  match r16.1 with
  | .error e => (.error (.docker e), cleanupWorkspace workspaceId f r16.2)
  | .ok _ =>
  (.ok { codeServerContainerId := codeServerNameOf workspaceId
         opencodeContainerId := opencodeNameOf workspaceId
         networkName := networkNameOf workspaceId
         volumeName := volumeNameOf workspaceId }, r16.2)

/-- Model of `stopWorkspaceContainer` (docker.ts lines 419-434): each
container's stop has its own `.catch(() => { })`, so every per-container
error is discarded and the function returns `{ success: true }`. -/
def stopWorkspaceContainer (workspaceId : String) (f : Faults) (s : St) :
    Except DockerErr LifecycleResult × St :=
  let s1 := (stopContainerP (codeServerNameOf workspaceId) f.stopCodeServer s).2
  let s2 := (stopContainerP (opencodeNameOf workspaceId) f.stopOpencode s1).2
  (.ok { success := true }, s2)

/-- Model of `startWorkspaceContainer` (docker.ts lines 436-451): same
per-container error swallowing as stop. -/
def startWorkspaceContainer (workspaceId : String) (f : Faults) (s : St) :
    Except DockerErr LifecycleResult × St :=
  let s1 := (startContainerP (codeServerNameOf workspaceId) f.startCodeServer s).2
  let s2 := (startContainerP (opencodeNameOf workspaceId) f.startOpencode s1).2
  (.ok { success := true }, s2)

/-- Model of `removeWorkspaceContainer` (docker.ts lines 453-472): stop
both (best-effort), forcibly remove both service containers
(best-effort), then run `cleanupWorkspace`. -/
def removeWorkspaceContainer (workspaceId : String) (f : Faults) (s : St) :
    Except DockerErr LifecycleResult × St :=
  let s1 := (stopWorkspaceContainer workspaceId f s).2
  let s2 := (removeContainerP (codeServerNameOf workspaceId) f.removeCodeServer s1).2
  let s3 := (removeContainerP (opencodeNameOf workspaceId) f.removeOpencode s2).2
  (.ok { success := true }, cleanupWorkspace workspaceId f s3)

/-! ### The workspaces POST route (part_005 lines 29-99) -/

/-- Model of the create-workspace POST handler after validation: create
the record with status `pending`, set `starting`, provision, then set
`running` on success or `error` on failure before re-raising. -/
def postHandler (cfg : WorkspaceContainerConfig) (f : Faults) (s : St) :
    Except CreateErr Handles × St :=
  let s1 := dbSetStatus .pending s
  let s2 := dbSetStatus .starting s1
  let r := createWorkspaceContainer cfg f s2
  match r.1 with
  | .ok h => (.ok h, dbSetStatus .running r.2)
  | .error e => (.error e, dbSetStatus .error r.2)

/-- Projection of the trace onto record-store status writes. -/
def statusOf : Ev → Option WsStatus
  | .statusWrite st => some st
  | _ => none

/-! ### The readiness probe (part_006 lines 36-63) -/

/-- Outcome of the single bounded `fetch` of the probe: some HTTP response
(with its status code), or a failure (network error or the 3s abort). -/
inductive FetchOutcome where
  | response (status : Nat)
  | failure
deriving Repr, DecidableEq

/-- Services the probe accepts. -/
inductive ProbeService where
  | opencode
  | vscode
deriving Repr, DecidableEq

/-- Container name and port the probe targets (part_006 lines 39-44). -/
def probeTarget (service : ProbeService) (workspaceId : String) : String × Nat :=
  match service with
  | .opencode => (opencodeNameOf workspaceId, 3001)
  | .vscode => (codeServerNameOf workspaceId, 8443)

/-- The probe's abort timeout in milliseconds (part_006 line 48). -/
def probeTimeoutMs : Nat := 3000

/-- Readiness classification (part_006 lines 46-63): any response at all,
including an error page, counts as ready; any fetch failure (no listener,
network error, timeout abort) counts as not ready. -/
def probeReady : FetchOutcome → Bool
  | .response _ => true
  | .failure => false

/-! ### Predicates and concrete inputs used by the claims -/

/-- No runtime resource derived from the workspace identifier exists:
none of the three containers, not the isolated network, neither volume. -/
def noWsResources (workspaceId : String) (s : St) : Prop :=
  (∀ c ∈ s.containers,
      c.name ≠ initNameOf workspaceId ∧
      c.name ≠ codeServerNameOf workspaceId ∧
      c.name ≠ opencodeNameOf workspaceId) ∧
  networkNameOf workspaceId ∉ s.networks ∧
  volumeNameOf workspaceId ∉ s.volumes ∧
  opencodeVolumeOf workspaceId ∉ s.volumes

instance (workspaceId : String) (s : St) : Decidable (noWsResources workspaceId s) := by
  unfold noWsResources; infer_instance

/-- Containers of other workspaces never reference this workspace's
isolated network or volumes (the spec's exclusive-ownership invariant):
any container attached to them is one of the three derived names. -/
def wellScoped (workspaceId : String) (s : St) : Prop :=
  ∀ c ∈ s.containers,
    (networkNameOf workspaceId ∈ c.networks ∨
     volumeNameOf workspaceId ∈ c.binds ∨
     opencodeVolumeOf workspaceId ∈ c.binds) →
    c.name = initNameOf workspaceId ∨
    c.name = codeServerNameOf workspaceId ∨
    c.name = opencodeNameOf workspaceId

instance (workspaceId : String) (s : St) : Decidable (wellScoped workspaceId s) := by
  unfold wellScoped; infer_instance

/-- Index of the first occurrence of an event in a trace. -/
def evIdx (e : Ev) (l : List Ev) : Nat := l.findIdx (fun x => x == e)

/-- Does a key end with the given suffix (used to classify routing-label
keys: router rules end in ".rule", middleware attachments in
".middlewares"). -/
def strEndsWith (s t : String) : Bool := decide (t.data <:+ s.data)

/-- Total number of models marked default across the given (enabled)
providers — the quantity claim C9 speaks about. -/
def countDefaultModels (providers : List Provider) : Nat :=
  (providers.map (fun p => p.models.countP (fun m => m.isDefault))).sum

/-- A generic running container used in concrete scenario states. -/
def exContainer (name : String) (nets binds : List String) : Container :=
  { name := name, image := "", networks := nets, binds := binds,
    env := [], labels := [], running := true }

/-- The empty runtime world. -/
def stEmpty : St :=
  { images := [], containers := [], networks := [], volumes := [],
    events := [], wsStatus := none }

/-- A fully provisioned workspace "w1": both service containers attached
to the isolated and shared networks, both volumes, record `running`. -/
def stRunningW1 : St :=
  { images := [gitImage, codeServerImage, opencodeImage]
    containers :=
      [exContainer "code-server-w1" ["workspace-w1", mainNetwork] ["workspace-w1-data"],
       exContainer "opencode-w1" ["workspace-w1", mainNetwork]
         ["workspace-w1-data", "workspace-w1-opencode"]]
    networks := [mainNetwork, "workspace-w1"]
    volumes := ["workspace-w1-data", "workspace-w1-opencode"]
    events := []
    wsStatus := some .running }

/-- Fault schedule in which both service containers' stop calls fail with
a generic (non-not-found) runtime error. -/
def faultsBothStopsFail : Faults :=
  { noFaults with stopCodeServer := true, stopOpencode := true }

/-- Fault schedule in which only the editor-service container's creation
throws. -/
def faultsEditorCreateFails : Faults :=
  { noFaults with createCodeServer := true }

/-- A concrete provisioning request for workspace "w1". -/
def cfgW1 : WorkspaceContainerConfig :=
  { workspaceId := "w1", githubRepo := "https://example.com/org/repo.git",
    githubBranch := "main", githubToken := none, skills := [],
    providers := [], domain := "localhost" }

/-- An enabled provider not marked default whose single enabled model is
marked default — exactly one default model overall. -/
def providerNonDefaultWithDefaultModel : Provider :=
  { providerId := "openai", isDefault := false, envVarName := none,
    apiKey := none, models := [{ modelId := "gpt-4o", isDefault := true }] }

/-- An enabled provider marked default whose single enabled model is also
marked default. -/
def providerDefaultWithDefaultModel : Provider :=
  { providerId := "ANTHROPIC", isDefault := true, envVarName := some "ANTHROPIC_API_KEY",
    apiKey := some "sk-test", models := [{ modelId := "claude-sonnet", isDefault := true }] }

/-! ### Helper lemmas: trace and record projections of the primitives -/

@[simp]
theorem pullImageIfNeeded_events (img : String) (fl : Bool) (s : St) :
    (pullImageIfNeeded img fl s).2.events = s.events ++ [.ensureImage img] := by
  simp only [pullImageIfNeeded, recordEv]
  repeat' split
  all_goals rfl

@[simp]
theorem createVolumeP_events (n : String) (fl : Bool) (s : St) :
    (createVolumeP n fl s).2.events = s.events ++ [.createVolume n] := by
  simp only [createVolumeP, recordEv]
  repeat' split
  all_goals rfl

@[simp]
theorem createNetworkP_events (n : String) (fl : Bool) (s : St) :
    (createNetworkP n fl s).2.events = s.events ++ [.createNetwork n] := by
  simp only [createNetworkP, recordEv]
  repeat' split
  all_goals rfl

@[simp]
theorem createContainerP_events (c : Container) (fl : Bool) (s : St) :
    (createContainerP c fl s).2.events = s.events ++ [.createContainer c.name] := by
  simp only [createContainerP, recordEv]
  repeat' split
  all_goals rfl

@[simp]
theorem startContainerP_events (n : String) (fl : Bool) (s : St) :
    (startContainerP n fl s).2.events = s.events ++ [.startContainer n] := by
  simp only [startContainerP, recordEv, updateContainer]
  repeat' split
  all_goals rfl

@[simp]
theorem stopContainerP_events (n : String) (fl : Bool) (s : St) :
    (stopContainerP n fl s).2.events = s.events ++ [.stopContainer n] := by
  simp only [stopContainerP, recordEv, updateContainer]
  repeat' split
  all_goals rfl

@[simp]
theorem waitContainerP_events (n : String) (code : Nat) (s : St) :
    (waitContainerP n code s).2.events = s.events ++ [.waitContainer n] := by
  simp only [waitContainerP, recordEv]
  repeat' split
  all_goals rfl

@[simp]
theorem removeContainerP_events (n : String) (fl : Bool) (s : St) :
    (removeContainerP n fl s).2.events = s.events ++ [.removeContainer n] := by
  simp only [removeContainerP, recordEv]
  repeat' split
  all_goals rfl

@[simp]
theorem removeNetworkP_events (n : String) (fl : Bool) (s : St) :
    (removeNetworkP n fl s).2.events = s.events ++ [.removeNetwork n] := by
  simp only [removeNetworkP, recordEv]
  repeat' split
  all_goals rfl

@[simp]
theorem removeVolumeP_events (n : String) (fl : Bool) (s : St) :
    (removeVolumeP n fl s).2.events = s.events ++ [.removeVolume n] := by
  simp only [removeVolumeP, recordEv]
  repeat' split
  all_goals rfl

@[simp]
theorem connectNetworkP_events (net ctr : String) (fl : Bool) (s : St) :
    (connectNetworkP net ctr fl s).2.events = s.events ++ [.connectNetwork net ctr] := by
  simp only [connectNetworkP, recordEv, updateContainer]
  repeat' split
  all_goals rfl

@[simp]
theorem dbSetStatus_events (st : WsStatus) (s : St) :
    (dbSetStatus st s).events = s.events ++ [.statusWrite st] := by
  simp [dbSetStatus, recordEv]

@[simp]
theorem cleanupWorkspace_events (workspaceId : String) (f : Faults) (s : St) :
    (cleanupWorkspace workspaceId f s).events =
      s.events ++
        [.removeContainer (initNameOf workspaceId),
         .removeNetwork (networkNameOf workspaceId),
         .removeVolume (volumeNameOf workspaceId),
         .removeVolume (opencodeVolumeOf workspaceId)] := by
  simp [cleanupWorkspace]

@[simp]
theorem stopWorkspaceContainer_events (workspaceId : String) (f : Faults) (s : St) :
    (stopWorkspaceContainer workspaceId f s).2.events =
      s.events ++
        [.stopContainer (codeServerNameOf workspaceId),
         .stopContainer (opencodeNameOf workspaceId)] := by
  simp [stopWorkspaceContainer]

@[simp]
theorem removeWorkspaceContainer_events (workspaceId : String) (f : Faults) (s : St) :
    (removeWorkspaceContainer workspaceId f s).2.events =
      s.events ++
        [.stopContainer (codeServerNameOf workspaceId),
         .stopContainer (opencodeNameOf workspaceId),
         .removeContainer (codeServerNameOf workspaceId),
         .removeContainer (opencodeNameOf workspaceId),
         .removeContainer (initNameOf workspaceId),
         .removeNetwork (networkNameOf workspaceId),
         .removeVolume (volumeNameOf workspaceId),
         .removeVolume (opencodeVolumeOf workspaceId)] := by
  simp [removeWorkspaceContainer]

/-! ### Claim C2 (corrected) -/

/-- C2 counterexample: in the actual removal trace for workspace "w1" the
init container's removal is attempted BEFORE the network and volume
removals, so the claimed order (network, then volumes, then init
container last) does not hold. -/
theorem c2_claimed_order_counterexample :
    ¬ (evIdx (.removeNetwork "workspace-w1")
          (removeWorkspaceContainer "w1" noFaults stRunningW1).2.events <
        evIdx (.removeContainer "init-w1")
          (removeWorkspaceContainer "w1" noFaults stRunningW1).2.events ∧
       evIdx (.removeVolume "workspace-w1-data")
          (removeWorkspaceContainer "w1" noFaults stRunningW1).2.events <
        evIdx (.removeContainer "init-w1")
          (removeWorkspaceContainer "w1" noFaults stRunningW1).2.events ∧
       evIdx (.removeVolume "workspace-w1-opencode")
          (removeWorkspaceContainer "w1" noFaults stRunningW1).2.events <
        evIdx (.removeContainer "init-w1")
          (removeWorkspaceContainer "w1" noFaults stRunningW1).2.events) := by
  decide

/-- C2 (amended): for every workspace identifier, fault schedule and
initial world, `removeWorkspaceContainer` attempts, in this order:
best-effort stop of both service containers, forcible removal of both
service containers, removal of any surviving init container, removal of
the isolated network, removal of the data volume, removal of the
agent-state volume — the attempted trace is the same for every fault
schedule (each step is independently best-effort), and the call reports
success. -/
theorem c2_remove_order_amended (workspaceId : String) (f : Faults) (s : St) :
    (removeWorkspaceContainer workspaceId f s).1 = .ok { success := true } ∧
    (removeWorkspaceContainer workspaceId f s).2.events =
      s.events ++
        [.stopContainer (codeServerNameOf workspaceId),
         .stopContainer (opencodeNameOf workspaceId),
         .removeContainer (codeServerNameOf workspaceId),
         .removeContainer (opencodeNameOf workspaceId),
         .removeContainer (initNameOf workspaceId),
         .removeNetwork (networkNameOf workspaceId),
         .removeVolume (volumeNameOf workspaceId),
         .removeVolume (opencodeVolumeOf workspaceId)] := by
  exact ⟨rfl, by simp [removeWorkspaceContainer]⟩

/-! ### Claim C4 (corrected) -/

/-- C4 counterexample: with both service containers present and both stop
calls failing with a generic (non-not-found) runtime error,
`stopWorkspaceContainer` still returns success — it never escalates. -/
theorem c4_counterexample :
    (stopContainerP (codeServerNameOf "w1") faultsBothStopsFail.stopCodeServer stRunningW1).1
        = .error .generic ∧
    (stopContainerP (opencodeNameOf "w1") faultsBothStopsFail.stopOpencode
        (stopContainerP (codeServerNameOf "w1") faultsBothStopsFail.stopCodeServer
          stRunningW1).2).1
        = .error .generic ∧
    (stopWorkspaceContainer "w1" faultsBothStopsFail stRunningW1).1
        = .ok { success := true } :=
  ⟨rfl, rfl, rfl⟩

/-- C4 (amended): `stopWorkspaceContainer` discards every per-container
stop error — not-found or generic alike, for both containers at once —
and returns `{ success: true }` for every fault schedule and world. -/
theorem c4_stop_never_escalates (workspaceId : String) (f : Faults) (s : St) :
    (stopWorkspaceContainer workspaceId f s).1 = .ok { success := true } := rfl

/-! ### Claim C6 (confirmed) -/

/-- C6: the readiness probe reports ready exactly when the target
produced any HTTP response — including an error response such as 404 —
and not ready when the fetch failed (no listener, network error, or the
bounded-timeout abort); the abort timeout constant is 3000 ms, within
the claimed ≤ 3.5 s resolution bound. -/
theorem c6_probe_semantics (o : FetchOutcome) :
    (probeReady o = true ↔ ∃ st, o = FetchOutcome.response st) ∧
    probeReady (.response 404) = true ∧
    probeReady .failure = false ∧
    probeTimeoutMs = 3000 ∧ probeTimeoutMs ≤ 3500 := by
  refine ⟨?_, rfl, rfl, rfl, by norm_num [probeTimeoutMs]⟩
  cases o <;> simp [probeReady]

/-! ### Behaviour of the first-occurrence replacement -/

theorem replaceFirstList_of_not_infix (pat repl : List Char) (s : List Char)
    (hpat : pat ≠ []) (h : ¬ pat <:+: s) : replaceFirstList pat repl s = s := by
  induction s with
  | nil => simp [replaceFirstList, hpat]
  | cons c rest ih =>
    have hp : pat.isPrefixOf (c :: rest) = false := by
      rw [Bool.eq_false_iff]
      intro hp
      exact h ((List.isPrefixOf_iff_prefix.mp hp).isInfix)
    rw [replaceFirstList, hp]
    simp only [Bool.false_eq_true, if_false]
    rw [ih (fun hi => h (List.infix_cons hi))]

theorem replaceFirstList_of_prefix (pat repl : List Char) (s : List Char)
    (hpat : pat ≠ []) (h : pat.isPrefixOf s = true) :
    replaceFirstList pat repl s = repl ++ s.drop pat.length := by
  cases s with
  | nil =>
    cases pat with
    | nil => exact absurd rfl hpat
    | cons p ps => simp [List.isPrefixOf] at h
  | cons c rest => rw [replaceFirstList, h]; simp

/-! ### Claim C10 (corrected) -/

/-- C10 counterexample: for a repository URL in which "https://" occurs
but not at the start, the token IS embedded (at the first occurrence),
so the embedding is not restricted to a literal leading "https://". -/
theorem c10_counterexample :
    ("https://".data.isPrefixOf "git+https://github.com/org/repo.git".data = false) ∧
    repoUrlWithToken "git+https://github.com/org/repo.git" (some "TOK")
      = "git+https://TOK@github.com/org/repo.git" ∧
    repoUrlWithToken "git+https://github.com/org/repo.git" (some "TOK")
      ≠ "git+https://github.com/org/repo.git" :=
  ⟨by decide, rfl, by decide⟩

/-- C10 (amended): with a token supplied, the clone URL replaces the
FIRST occurrence of the literal "https://" (wherever it occurs) by
"https://<token>@"; a URL with no "https://" occurrence is unchanged; no
token leaves the URL unchanged; and the agent container's environment
starts with the token bound as both GITHUB_TOKEN and GH_TOKEN. -/
theorem c10_token_embedding (repo t : String) (providers : List Provider) :
    (¬ "https://".data <:+: repo.data → repoUrlWithToken repo (some t) = repo) ∧
    ("https://".data.isPrefixOf repo.data = true →
       repoUrlWithToken repo (some t) = "https://" ++ t ++ "@" ++ ⟨repo.data.drop 8⟩) ∧
    repoUrlWithToken repo none = repo ∧
    (opencodeEnvOf (some t) providers).take 2 = ["GITHUB_TOKEN=" ++ t, "GH_TOKEN=" ++ t] := by
  refine ⟨?_, ?_, rfl, ?_⟩
  · intro h
    apply String.ext
    exact replaceFirstList_of_not_infix _ _ _ (by decide) h
  · intro h
    apply String.ext
    have h8 : ("https://" : String).data.length = 8 := rfl
    rw [show (repoUrlWithToken repo (some t)).data
          = replaceFirstList ("https://" : String).data
              (("https://" ++ t ++ "@" : String)).data repo.data from rfl,
        replaceFirstList_of_prefix _ _ _ (by decide) h, h8]
    simp [String.data_append]
  · simp [opencodeEnvOf]

/-- C10 witness: the amended behaviour evaluated on a concrete leading
"https://" URL and token. -/
theorem c10_token_embedding_witness :
    repoUrlWithToken "https://github.com/org/repo.git" (some "TOK")
      = "https://TOK@github.com/org/repo.git" ∧
    (opencodeEnvOf (some "TOK") []).take 2 = ["GITHUB_TOKEN=TOK", "GH_TOKEN=TOK"] := by
  refine ⟨((c10_token_embedding "https://github.com/org/repo.git" "TOK" []).2.1
    (by decide)).trans (by rfl), ?_⟩
  exact ((c10_token_embedding "https://github.com/org/repo.git" "TOK" []).2.2.2).trans (by rfl)

/-! ### Claim C9 (corrected) -/

/-- C9 counterexample: an owner with a single enabled provider that is
not marked default but whose one enabled model is marked default has
exactly one default model overall, yet the synthesized configuration
contains no default-model reference — the code keys the reference off
the first provider marked default, not off the count of default models. -/
theorem c9_counterexample :
    ¬ (∀ ps : List Provider,
        (countDefaultModels ps = 1 → ((buildOpencodeConfig ps).model).isSome = true) ∧
        (countDefaultModels ps ≠ 1 → (buildOpencodeConfig ps).model = none)) := by
  intro h
  have h1 := (h [providerNonDefaultWithDefaultModel]).1 (by decide)
  rw [show (buildOpencodeConfig [providerNonDefaultWithDefaultModel]).model = none from rfl] at h1
  simp at h1

/-- C9 (amended): the synthesized configuration carries the
`<provider>/<model>` default reference exactly when the FIRST enabled
provider marked default exists and itself has a model marked default
(first such model wins); in every other case no default-model reference
is emitted. -/
theorem c9_default_model (ps : List Provider) :
    (ps.find? (fun p => p.isDefault) = none → (buildOpencodeConfig ps).model = none) ∧
    (∀ p, ps.find? (fun p => p.isDefault) = some p →
       (p.models.find? (fun m => m.isDefault) = none →
          (buildOpencodeConfig ps).model = none) ∧
       (∀ m, p.models.find? (fun m => m.isDefault) = some m →
          (buildOpencodeConfig ps).model = some (strToLower p.providerId ++ "/" ++ m.modelId))) := by
  unfold buildOpencodeConfig
  refine ⟨fun h => by simp [h], fun p hp => ⟨fun h => by simp [hp, h], fun m hm => by simp [hp, hm]⟩⟩

/-- C9 witness: the amended behaviour evaluated on a concrete default
provider/model pair. -/
theorem c9_default_model_witness :
    (buildOpencodeConfig [providerDefaultWithDefaultModel]).model
      = some "anthropic/claude-sonnet" := by
  have h := ((c9_default_model [providerDefaultWithDefaultModel]).2
      providerDefaultWithDefaultModel rfl).2
      { modelId := "claude-sonnet", isDefault := true } rfl
  exact h.trans (by decide)

/-! ### String-suffix classification of label keys -/

@[simp]
theorem strEndsWith_append_right (s u t : String) (hlen : t.data.length ≤ u.data.length) :
    strEndsWith (s ++ u) t = strEndsWith u t := by
  simp only [strEndsWith, String.data_append]
  rw [decide_eq_decide]
  constructor
  · intro h
    exact List.suffix_of_suffix_length_le h (List.suffix_append _ _) hlen
  · intro h
    exact h.trans (List.suffix_append _ _)

theorem getLast?_eq_of_suffix {t w : List Char} (h : t <:+ w) (ht : t ≠ []) :
    w.getLast? = t.getLast? := by
  obtain ⟨p, rfl⟩ := h
  rw [List.getLast?_append]
  cases hc : t.getLast? with
  | none => exact absurd (List.getLast?_eq_none_iff.mp hc) ht
  | some c => simp [Option.or]

@[simp]
theorem strEndsWith_false_of_last (s u t : String) (ht : t.data ≠ []) (hu : u.data ≠ [])
    (hne : t.data.getLast? ≠ u.data.getLast?) : strEndsWith (s ++ u) t = false := by
  apply decide_eq_false
  intro hsfx
  apply hne
  rw [String.data_append] at hsfx
  have h1 := getLast?_eq_of_suffix hsfx ht
  rw [List.getLast?_append] at h1
  rw [← h1]
  cases hc : u.data.getLast? with
  | none => exact absurd (List.getLast?_eq_none_iff.mp hc) hu
  | some c => simp [Option.or, hc]

theorem ne_of_append_head {α : Type} (a b x y : List α) (i : Nat)
    (ha : i < a.length) (hb : i < b.length)
    (hne : a[i]? ≠ b[i]?) : a ++ x ≠ b ++ y := by
  intro h
  apply hne
  rw [← List.getElem?_append_left ha, ← List.getElem?_append_left hb, h]

/-! ### Claim C7 (confirmed) -/

/-- C7: for every workspace identifier and domain, the agent-service
container's label map holds exactly two router rules — the interactive
hostname whose service maps to port 3001 and a distinct preview hostname
whose service maps to port 3000 — plus the response-header middleware
clearing X-Frame-Options and Content-Security-Policy, and exactly one
router-middleware attachment, namely on the preview router; the editor
container's labels attach no middleware at all. -/
theorem c7_routing_labels (workspaceId domain : String) :
    (opencodeLabels workspaceId domain).filter (fun p => strEndsWith p.1 ".rule")
      = [("traefik.http.routers.opencode-" ++ workspaceId ++ ".rule",
           "Host(`opencode-" ++ workspaceId ++ "." ++ domain ++ "`)"),
         ("traefik.http.routers.preview-" ++ workspaceId ++ ".rule",
           "Host(`preview-" ++ workspaceId ++ "." ++ domain ++ "`)")] ∧
    ("Host(`opencode-" ++ workspaceId ++ "." ++ domain ++ "`)" : String)
      ≠ "Host(`preview-" ++ workspaceId ++ "." ++ domain ++ "`)" ∧
    ("traefik.http.services.opencode-" ++ workspaceId ++ ".loadbalancer.server.port", "3001")
      ∈ opencodeLabels workspaceId domain ∧
    ("traefik.http.services.preview-" ++ workspaceId ++ ".loadbalancer.server.port", "3000")
      ∈ opencodeLabels workspaceId domain ∧
    ("traefik.http.middlewares.preview-headers-" ++ workspaceId ++
        ".headers.customResponseHeaders.X-Frame-Options", "")
      ∈ opencodeLabels workspaceId domain ∧
    ("traefik.http.middlewares.preview-headers-" ++ workspaceId ++
        ".headers.customResponseHeaders.Content-Security-Policy", "")
      ∈ opencodeLabels workspaceId domain ∧
    (opencodeLabels workspaceId domain).filter (fun p => strEndsWith p.1 ".middlewares")
      = [("traefik.http.routers.preview-" ++ workspaceId ++ ".middlewares",
           "preview-headers-" ++ workspaceId)] ∧
    (codeServerLabels workspaceId domain).filter (fun p => strEndsWith p.1 ".middlewares")
      = [] := by
  refine ⟨?_, ?_, ?_, ?_, ?_, ?_, ?_, ?_⟩
  · simp +decide [opencodeLabels, List.filter_cons]
  · intro h
    have hd := congrArg String.data h
    simp only [String.data_append, List.append_assoc] at hd
    exact ne_of_append_head _ _ _ _ 6 (by decide) (by decide) (by decide) hd
  · simp [opencodeLabels]
  · simp [opencodeLabels]
  · simp [opencodeLabels]
  · simp [opencodeLabels]
  · simp +decide [opencodeLabels, List.filter_cons]
  · simp +decide [codeServerLabels, List.filter_cons]

/-- C7 witness: the label classification evaluated at a concrete
workspace and domain. -/
theorem c7_routing_labels_witness :
    (opencodeLabels "w1" "localhost").filter (fun p => strEndsWith p.1 ".rule")
      = [("traefik.http.routers.opencode-" ++ "w1" ++ ".rule",
           "Host(`opencode-" ++ "w1" ++ "." ++ "localhost" ++ "`)"),
         ("traefik.http.routers.preview-" ++ "w1" ++ ".rule",
           "Host(`preview-" ++ "w1" ++ "." ++ "localhost" ++ "`)")] :=
  (c7_routing_labels "w1" "localhost").1

/-! ### State projections of the primitives -/

@[simp]
theorem stopContainerP_networks (n : String) (fl : Bool) (s : St) :
    (stopContainerP n fl s).2.networks = s.networks := by
  simp only [stopContainerP, recordEv, updateContainer]
  repeat' split
  all_goals rfl

@[simp]
theorem stopContainerP_volumes (n : String) (fl : Bool) (s : St) :
    (stopContainerP n fl s).2.volumes = s.volumes := by
  simp only [stopContainerP, recordEv, updateContainer]
  repeat' split
  all_goals rfl

@[simp]
theorem startContainerP_networks (n : String) (fl : Bool) (s : St) :
    (startContainerP n fl s).2.networks = s.networks := by
  simp only [startContainerP, recordEv, updateContainer]
  repeat' split
  all_goals rfl

@[simp]
theorem startContainerP_volumes (n : String) (fl : Bool) (s : St) :
    (startContainerP n fl s).2.volumes = s.volumes := by
  simp only [startContainerP, recordEv, updateContainer]
  repeat' split
  all_goals rfl

@[simp]
theorem removeContainerP_networks (n : String) (fl : Bool) (s : St) :
    (removeContainerP n fl s).2.networks = s.networks := by
  simp only [removeContainerP, recordEv]
  repeat' split
  all_goals rfl

@[simp]
theorem removeContainerP_volumes (n : String) (fl : Bool) (s : St) :
    (removeContainerP n fl s).2.volumes = s.volumes := by
  simp only [removeContainerP, recordEv]
  repeat' split
  all_goals rfl

@[simp]
theorem removeNetworkP_containers (n : String) (fl : Bool) (s : St) :
    (removeNetworkP n fl s).2.containers = s.containers := by
  simp only [removeNetworkP, recordEv]
  repeat' split
  all_goals rfl

@[simp]
theorem removeNetworkP_volumes (n : String) (fl : Bool) (s : St) :
    (removeNetworkP n fl s).2.volumes = s.volumes := by
  simp only [removeNetworkP, recordEv]
  repeat' split
  all_goals rfl

@[simp]
theorem removeVolumeP_containers (n : String) (fl : Bool) (s : St) :
    (removeVolumeP n fl s).2.containers = s.containers := by
  simp only [removeVolumeP, recordEv]
  repeat' split
  all_goals rfl

@[simp]
theorem removeVolumeP_networks (n : String) (fl : Bool) (s : St) :
    (removeVolumeP n fl s).2.networks = s.networks := by
  simp only [removeVolumeP, recordEv]
  repeat' split
  all_goals rfl

/-! ### Membership characterizations used for teardown reasoning -/

theorem findContainer_eq_none {n : String} {s : St}
    (h : ∀ c ∈ s.containers, ¬ c.name = n) : findContainer n s = none :=
  List.find?_eq_none.mpr (fun c hc => by simp [h c hc])

theorem mem_stopContainerP {c : Container} {n : String} {s : St}
    (hc : c ∈ (stopContainerP n false s).2.containers) :
    ∃ c₀ ∈ s.containers, c.name = c₀.name ∧ c.networks = c₀.networks ∧
      c.binds = c₀.binds := by
  simp only [stopContainerP, recordEv, updateContainer, Bool.false_eq_true, if_false] at hc
  split at hc
  · simp only [List.mem_map] at hc
    obtain ⟨c₀, hm, heq⟩ := hc
    refine ⟨c₀, hm, ?_⟩
    by_cases hb : (c₀.name == n) = true <;> simp [hb] at heq <;> subst heq <;> simp
  · exact ⟨c, hc, rfl, rfl, rfl⟩

theorem mem_removeContainerP {c : Container} {n : String} {s : St}
    (hc : c ∈ (removeContainerP n false s).2.containers) :
    c ∈ s.containers ∧ c.name ≠ n := by
  simp only [removeContainerP, recordEv, Bool.false_eq_true, if_false] at hc
  split at hc
  · rw [List.mem_filter] at hc
    refine ⟨hc.1, ?_⟩
    have := hc.2
    simp only [Bool.not_eq_eq_eq_not, Bool.not_true] at this
    simpa using this
  · next hfind =>
    refine ⟨hc, fun he => ?_⟩
    rw [Option.not_isSome_iff_eq_none] at hfind
    have := List.find?_eq_none.mp hfind c hc
    simp [he] at this

theorem removeNetworkP_result {n : String} {s : St}
    (hno : ∀ c ∈ s.containers, ¬ n ∈ c.networks) :
    n ∉ (removeNetworkP n false s).2.networks ∧
    ∀ m ∈ (removeNetworkP n false s).2.networks, m ∈ s.networks := by
  simp only [removeNetworkP, recordEv, Bool.false_eq_true, if_false]
  have hany : ¬ ∃ c ∈ s.containers, n ∈ c.networks := by
    rintro ⟨c, hm, hcon⟩
    exact hno c hm hcon
  by_cases hmem : n ∈ s.networks
  · rw [if_neg (not_not_intro hmem), if_neg hany]
    refine ⟨?_, fun m hm => (List.mem_filter.mp hm).1⟩
    intro hin
    rw [List.mem_filter] at hin
    simp at hin
  · rw [if_pos hmem]
    exact ⟨hmem, fun m hm => hm⟩

theorem removeVolumeP_result {n : String} {s : St}
    (hno : ∀ c ∈ s.containers, ¬ n ∈ c.binds) :
    n ∉ (removeVolumeP n false s).2.volumes ∧
    ∀ m ∈ (removeVolumeP n false s).2.volumes, m ∈ s.volumes := by
  simp only [removeVolumeP, recordEv, Bool.false_eq_true, if_false]
  have hany : ¬ ∃ c ∈ s.containers, n ∈ c.binds := by
    rintro ⟨c, hm, hcon⟩
    exact hno c hm hcon
  by_cases hmem : n ∈ s.volumes
  · rw [if_neg (not_not_intro hmem), if_neg hany]
    refine ⟨?_, fun m hm => (List.mem_filter.mp hm).1⟩
    intro hin
    rw [List.mem_filter] at hin
    simp at hin
  · rw [if_pos hmem]
    exact ⟨hmem, fun m hm => hm⟩

@[simp] theorem noFaults_stopCodeServer : noFaults.stopCodeServer = false := rfl
@[simp] theorem noFaults_stopOpencode : noFaults.stopOpencode = false := rfl
@[simp] theorem noFaults_removeCodeServer : noFaults.removeCodeServer = false := rfl
@[simp] theorem noFaults_removeOpencode : noFaults.removeOpencode = false := rfl
@[simp] theorem noFaults_cleanupRemoveInit : noFaults.cleanupRemoveInit = false := rfl
@[simp] theorem noFaults_cleanupRemoveNet : noFaults.cleanupRemoveNet = false := rfl
@[simp] theorem noFaults_cleanupRemoveDataVolume : noFaults.cleanupRemoveDataVolume = false := rfl
@[simp] theorem noFaults_cleanupRemoveOpencodeVolume :
    noFaults.cleanupRemoveOpencodeVolume = false := rfl

/-- A volume name absent from the world stays absent through any
`removeVolumeP` call. -/
theorem removeVolumeP_not_mem_preserve {n m : String} {fl : Bool} {s : St}
    (h : m ∉ s.volumes) : m ∉ (removeVolumeP n fl s).2.volumes := by
  intro hin
  apply h
  simp only [removeVolumeP, recordEv] at hin
  repeat' split at hin
  · exact hin
  · exact hin
  · exact hin
  · exact (List.mem_filter.mp hin).1

set_option maxHeartbeats 1000000 in
/-- Every container surviving a fault-free `removeWorkspaceContainer`
descends from a container of the initial world with the same name,
network attachments and volume binds, and bears none of the three
workspace-derived container names. -/
theorem mem_removeWorkspace_noFaults {c : Container} {workspaceId : String} {s : St}
    (hc : c ∈ (removeWorkspaceContainer workspaceId noFaults s).2.containers) :
    ∃ c₀ ∈ s.containers, c.name = c₀.name ∧ c.networks = c₀.networks ∧
      c.binds = c₀.binds ∧ c.name ≠ initNameOf workspaceId ∧
      c.name ≠ codeServerNameOf workspaceId ∧ c.name ≠ opencodeNameOf workspaceId := by
  simp only [removeWorkspaceContainer, stopWorkspaceContainer, cleanupWorkspace,
    noFaults_stopCodeServer, noFaults_stopOpencode, noFaults_removeCodeServer,
    noFaults_removeOpencode, noFaults_cleanupRemoveInit,
    removeVolumeP_containers, removeNetworkP_containers] at hc
  obtain ⟨h3, hinit⟩ := mem_removeContainerP hc
  obtain ⟨h2, hoc⟩ := mem_removeContainerP h3
  obtain ⟨h1, hcs⟩ := mem_removeContainerP h2
  obtain ⟨cm, hmm, hname, hnet, hbind⟩ := mem_stopContainerP h1
  obtain ⟨c₀, hm₀, hname₀, hnet₀, hbind₀⟩ := mem_stopContainerP hmm
  exact ⟨c₀, hm₀, hname.trans hname₀, hnet.trans hnet₀, hbind.trans hbind₀,
    hinit, hcs, hoc⟩

set_option maxHeartbeats 1600000 in
/-- After a fault-free `removeWorkspaceContainer` on a world whose other
workspaces never reference this workspace's resources, no runtime
resource bearing the workspace identifier remains. -/
theorem remove_noFaults_clean (workspaceId : String) (s : St)
    (hs : wellScoped workspaceId s) :
    noWsResources workspaceId (removeWorkspaceContainer workspaceId noFaults s).2 := by
  have hcont : ∀ c ∈ (removeWorkspaceContainer workspaceId noFaults s).2.containers,
      networkNameOf workspaceId ∉ c.networks ∧
      volumeNameOf workspaceId ∉ c.binds ∧
      opencodeVolumeOf workspaceId ∉ c.binds := by
    intro c hc
    obtain ⟨c₀, hm, hname, hnet, hbind, hinit, hcs, hoc⟩ := mem_removeWorkspace_noFaults hc
    refine ⟨fun hin => ?_, fun hin => ?_, fun hin => ?_⟩
    · rcases hs c₀ hm (Or.inl (hnet ▸ hin)) with h | h | h <;>
        [exact hinit (hname.trans h); exact hcs (hname.trans h); exact hoc (hname.trans h)]
    · rcases hs c₀ hm (Or.inr (Or.inl (hbind ▸ hin))) with h | h | h <;>
        [exact hinit (hname.trans h); exact hcs (hname.trans h); exact hoc (hname.trans h)]
    · rcases hs c₀ hm (Or.inr (Or.inr (hbind ▸ hin))) with h | h | h <;>
        [exact hinit (hname.trans h); exact hcs (hname.trans h); exact hoc (hname.trans h)]
  refine ⟨?_, ?_, ?_, ?_⟩
  · intro c hc
    obtain ⟨c₀, hm, hname, hnet, hbind, hinit, hcs, hoc⟩ := mem_removeWorkspace_noFaults hc
    exact ⟨hinit, hcs, hoc⟩
  · -- the isolated network is gone
    simp only [removeWorkspaceContainer, stopWorkspaceContainer, cleanupWorkspace,
      noFaults_cleanupRemoveNet, removeVolumeP_networks]
    apply (removeNetworkP_result ?_).1
    intro c hc hin
    have hc' : c ∈ (removeWorkspaceContainer workspaceId noFaults s).2.containers := by
      simp only [removeWorkspaceContainer, stopWorkspaceContainer, cleanupWorkspace,
        removeVolumeP_containers, removeNetworkP_containers]
      exact hc
    exact (hcont c hc').1 hin
  · -- the data volume is gone
    simp only [removeWorkspaceContainer, stopWorkspaceContainer, cleanupWorkspace,
      noFaults_cleanupRemoveDataVolume, noFaults_cleanupRemoveOpencodeVolume]
    apply removeVolumeP_not_mem_preserve
    apply (removeVolumeP_result ?_).1
    intro c hc hbad
    have hc' : c ∈ (removeWorkspaceContainer workspaceId noFaults s).2.containers := by
      simp only [removeWorkspaceContainer, stopWorkspaceContainer, cleanupWorkspace,
        noFaults_cleanupRemoveNet, removeVolumeP_containers, removeNetworkP_containers]
      simp only [removeNetworkP_containers] at hc
      exact hc
    exact (hcont c hc').2.1 hbad
  · -- the agent-state volume is gone
    simp only [removeWorkspaceContainer, stopWorkspaceContainer, cleanupWorkspace,
      noFaults_cleanupRemoveOpencodeVolume]
    apply (removeVolumeP_result ?_).1
    intro c hc hbad
    have hc' : c ∈ (removeWorkspaceContainer workspaceId noFaults s).2.containers := by
      simp only [removeWorkspaceContainer, stopWorkspaceContainer, cleanupWorkspace,
        removeVolumeP_containers, removeNetworkP_containers]
      simp only [removeVolumeP_containers, removeNetworkP_containers] at hc
      exact hc
    exact (hcont c hc').2.2 hbad

/-- The exclusive-ownership invariant survives a fault-free removal. -/
theorem remove_preserves_wellScoped (workspaceId : String) (s : St)
    (hs : wellScoped workspaceId s) :
    wellScoped workspaceId (removeWorkspaceContainer workspaceId noFaults s).2 := by
  intro c hc href
  obtain ⟨c₀, hm, hname, hnet, hbind, _, _, _⟩ := mem_removeWorkspace_noFaults hc
  rw [hname]
  apply hs c₀ hm
  rcases href with h | h | h
  · exact Or.inl (hnet ▸ h)
  · exact Or.inr (Or.inl (hbind ▸ h))
  · exact Or.inr (Or.inr (hbind ▸ h))

/-! ### Generic list and string rewriting helpers -/

theorem append_right_ne (p : String) {x y : String} (h : x ≠ y) : p ++ x ≠ p ++ y := by
  intro hc
  apply h
  apply String.ext
  have hd := congrArg String.data hc
  rw [String.data_append, String.data_append] at hd
  exact List.append_cancel_left hd

theorem map_update_of_absent {l : List Container} {n : String} (g : Container → Container)
    (h : List.find? (fun c => c.name == n) l = none) :
    (l.map fun c => if c.name = n then g c else c) = l := by
  have h' := List.find?_eq_none.mp h
  trans (l.map id)
  · apply List.map_congr_left
    intro c hc
    have hb : ¬ c.name = n := by simpa using h' c hc
    simp [hb]
  · exact List.map_id l

theorem filter_ne_name_of_absent {l : List Container} {n : String}
    (h : List.find? (fun c => c.name == n) l = none) :
    (l.filter fun c => !(c.name == n)) = l := by
  have h' := List.find?_eq_none.mp h
  apply List.filter_eq_self.mpr
  intro c hc
  have hb : (c.name == n) = false := by simpa using h' c hc
  simp [hb]

theorem filter_ne_of_not_mem {l : List String} {n : String} (h : n ∉ l) :
    (l.filter fun m => !(m == n)) = l := by
  apply List.filter_eq_self.mpr
  intro m hm
  have : ¬ m = n := fun he => h (he ▸ hm)
  simp [this]

/-! ### The editor-creation-failure run of the provisioner -/

set_option maxHeartbeats 2000000 in
/-- Full evaluation of `createWorkspaceContainer` for an attempt in which
every step up to and including the init-container clone succeeds, the
editor-service container's creation throws, and the rollback's runtime
calls succeed: the error is re-raised after `cleanupWorkspace` ran, and
the resulting world again holds exactly the initial containers, networks
and volumes. -/
theorem create_editorFail_run (cfg : WorkspaceContainerConfig) (f : Faults) (s : St)
    (h1 : f.pullGit = false) (h2 : f.pullCodeServer = false) (h3 : f.pullOpencode = false)
    (h4 : f.createDataVolume = false) (h5 : f.createOpencodeVolume = false)
    (h6 : f.createNet = false) (h7 : f.createInit = false) (h8 : f.startInit = false)
    (h9 : f.initExitCode = 0) (h10 : f.removeInitAfterClone = false)
    (hfail : f.createCodeServer = true)
    (h11 : f.cleanupRemoveInit = false) (h12 : f.cleanupRemoveNet = false)
    (h13 : f.cleanupRemoveDataVolume = false) (h14 : f.cleanupRemoveOpencodeVolume = false)
    (himg : s.images = [])
    (hclean : noWsResources cfg.workspaceId s)
    (hscope : wellScoped cfg.workspaceId s) :
    createWorkspaceContainer cfg f s =
      (.error (.docker .generic),
       { images := [gitImage, codeServerImage, opencodeImage]
         containers := s.containers
         networks := s.networks
         volumes := s.volumes
         events := s.events ++
           [.ensureImage gitImage, .ensureImage codeServerImage, .ensureImage opencodeImage,
            .createVolume (volumeNameOf cfg.workspaceId),
            .createVolume (opencodeVolumeOf cfg.workspaceId),
            .createNetwork (networkNameOf cfg.workspaceId),
            .createContainer (initNameOf cfg.workspaceId),
            .startContainer (initNameOf cfg.workspaceId),
            .waitContainer (initNameOf cfg.workspaceId),
            .removeContainer (initNameOf cfg.workspaceId),
            .createContainer (codeServerNameOf cfg.workspaceId),
            .removeContainer (initNameOf cfg.workspaceId),
            .removeNetwork (networkNameOf cfg.workspaceId),
            .removeVolume (volumeNameOf cfg.workspaceId),
            .removeVolume (opencodeVolumeOf cfg.workspaceId)]
         wsStatus := s.wsStatus }) := by
  obtain ⟨hcn, hnet, hv1, hv2⟩ := hclean
  have hfi : List.find? (fun c => c.name == initNameOf cfg.workspaceId) s.containers
      = none := by
    apply List.find?_eq_none.mpr
    intro c hc
    simp [(hcn c hc).1]
  have hAnyNet : ¬ ∃ c ∈ s.containers, networkNameOf cfg.workspaceId ∈ c.networks := by
    rintro ⟨c, hm, hin⟩
    rcases hscope c hm (Or.inl hin) with h | h | h
    · exact (hcn c hm).1 h
    · exact (hcn c hm).2.1 h
    · exact (hcn c hm).2.2 h
  have hB1 : ¬ ∃ c ∈ s.containers, volumeNameOf cfg.workspaceId ∈ c.binds := by
    rintro ⟨c, hm, hin⟩
    rcases hscope c hm (Or.inr (Or.inl hin)) with h | h | h
    · exact (hcn c hm).1 h
    · exact (hcn c hm).2.1 h
    · exact (hcn c hm).2.2 h
  have hB2 : ¬ ∃ c ∈ s.containers, opencodeVolumeOf cfg.workspaceId ∈ c.binds := by
    rintro ⟨c, hm, hin⟩
    rcases hscope c hm (Or.inr (Or.inr hin)) with h | h | h
    · exact (hcn c hm).1 h
    · exact (hcn c hm).2.1 h
    · exact (hcn c hm).2.2 h
  have hv21 : ¬ (opencodeVolumeOf cfg.workspaceId = volumeNameOf cfg.workspaceId) := by
    unfold opencodeVolumeOf volumeNameOf
    exact append_right_ne _ (by decide)
  simp [createWorkspaceContainer, pullImageIfNeeded, createVolumeP, createNetworkP,
    createContainerP, startContainerP, waitContainerP, removeContainerP,
    cleanupWorkspace, removeNetworkP, removeVolumeP, recordEv, updateContainer,
    findContainer, initContainerSpec, codeServerSpec, firstErr3,
    h1, h2, h3, h4, h5, h6, h7, h8, h9, h10, hfail, h11, h12, h13, h14,
    himg, hfi, hAnyNet, hB1, hB2, hv1, hv2, hnet, hv21,
    map_update_of_absent, filter_ne_name_of_absent, filter_ne_of_not_mem,
    List.find?_append, List.map_append, List.filter_append, gitImage,
    codeServerImage, opencodeImage]

/-! ### Claim C1 (confirmed) -/

/-- C1: whenever the editor-service container's creation throws after
the isolated network and both volumes were created (all earlier steps
having succeeded) and the rollback's runtime calls succeed,
`createWorkspaceContainer` runs the cleanup routine — visible in the
trace as the four rollback attempts after the failed creation — then
re-raises the error, and the resulting world holds no network, no
volume and no container bearing the workspace identifier. -/
theorem c1_rollback_on_editor_failure (cfg : WorkspaceContainerConfig) (f : Faults) (s : St)
    (h1 : f.pullGit = false) (h2 : f.pullCodeServer = false) (h3 : f.pullOpencode = false)
    (h4 : f.createDataVolume = false) (h5 : f.createOpencodeVolume = false)
    (h6 : f.createNet = false) (h7 : f.createInit = false) (h8 : f.startInit = false)
    (h9 : f.initExitCode = 0) (h10 : f.removeInitAfterClone = false)
    (hfail : f.createCodeServer = true)
    (h11 : f.cleanupRemoveInit = false) (h12 : f.cleanupRemoveNet = false)
    (h13 : f.cleanupRemoveDataVolume = false) (h14 : f.cleanupRemoveOpencodeVolume = false)
    (himg : s.images = [])
    (hclean : noWsResources cfg.workspaceId s)
    (hscope : wellScoped cfg.workspaceId s) :
    (∃ e, (createWorkspaceContainer cfg f s).1 = .error e) ∧
    (createWorkspaceContainer cfg f s).2.events = s.events ++
      [.ensureImage gitImage, .ensureImage codeServerImage, .ensureImage opencodeImage,
       .createVolume (volumeNameOf cfg.workspaceId),
       .createVolume (opencodeVolumeOf cfg.workspaceId),
       .createNetwork (networkNameOf cfg.workspaceId),
       .createContainer (initNameOf cfg.workspaceId),
       .startContainer (initNameOf cfg.workspaceId),
       .waitContainer (initNameOf cfg.workspaceId),
       .removeContainer (initNameOf cfg.workspaceId),
       .createContainer (codeServerNameOf cfg.workspaceId),
       .removeContainer (initNameOf cfg.workspaceId),
       .removeNetwork (networkNameOf cfg.workspaceId),
       .removeVolume (volumeNameOf cfg.workspaceId),
       .removeVolume (opencodeVolumeOf cfg.workspaceId)] ∧
    noWsResources cfg.workspaceId (createWorkspaceContainer cfg f s).2 := by
  rw [create_editorFail_run cfg f s h1 h2 h3 h4 h5 h6 h7 h8 h9 h10 hfail h11 h12 h13 h14
    himg hclean hscope]
  exact ⟨⟨.docker .generic, rfl⟩, rfl, hclean⟩

/-- C1 witness: the editor-creation-failure run evaluated on the empty
world with a concrete request. -/
theorem c1_rollback_witness :
    noWsResources "w1"
      (createWorkspaceContainer cfgW1 faultsEditorCreateFails stEmpty).2 ∧
    (∃ e, (createWorkspaceContainer cfgW1 faultsEditorCreateFails stEmpty).1 = .error e) := by
  have h := c1_rollback_on_editor_failure cfgW1 faultsEditorCreateFails stEmpty
    rfl rfl rfl rfl rfl rfl rfl rfl rfl rfl rfl rfl rfl rfl rfl rfl
    (by decide) (by decide)
  exact ⟨h.2.2, h.1⟩

/-! ### Claim C8 (confirmed) -/

/-- Whatever the fault schedule, the trace of a provisioning run begins
with the three image-ensure attempts. -/
theorem create_events_extends (cfg : WorkspaceContainerConfig) (f : Faults) (s : St) :
    ∃ t, (createWorkspaceContainer cfg f s).2.events
      = s.events ++ (Ev.ensureImage gitImage :: Ev.ensureImage codeServerImage ::
          Ev.ensureImage opencodeImage :: t) := by
  simp only [createWorkspaceContainer]
  repeat' split
  all_goals (constructor; (simp; try rfl))

/-- C8: all three image pulls are attempted — and appear in the trace —
before any resource-creating call, under every fault schedule; and if
any of the pulls fails, provisioning aborts with an error after the
joined pull step, leaving the world with no container, network or
volume created. -/
theorem c8_parallel_pulls (cfg : WorkspaceContainerConfig) (f : Faults) (s : St)
    (hev : s.events = []) (himg : s.images = [])
    (hclean : noWsResources cfg.workspaceId s) :
    (createWorkspaceContainer cfg f s).2.events.take 3
      = [.ensureImage gitImage, .ensureImage codeServerImage, .ensureImage opencodeImage] ∧
    ((f.pullGit = true ∨ f.pullCodeServer = true ∨ f.pullOpencode = true) →
      (∃ e, (createWorkspaceContainer cfg f s).1 = .error e) ∧
      (createWorkspaceContainer cfg f s).2.containers = s.containers ∧
      (createWorkspaceContainer cfg f s).2.networks = s.networks ∧
      (createWorkspaceContainer cfg f s).2.volumes = s.volumes) := by
  constructor
  · obtain ⟨t, ht⟩ := create_events_extends cfg f s
    rw [ht, hev]
    simp
  · intro hcase
    obtain ⟨hcn, hnet, hv1, hv2⟩ := hclean
    have hfi : List.find? (fun c => c.name == initNameOf cfg.workspaceId) s.containers
        = none := by
      apply List.find?_eq_none.mpr
      intro c hc
      simp [(hcn c hc).1]
    rcases hg : f.pullGit <;> rcases hcs : f.pullCodeServer <;> rcases ho : f.pullOpencode
    all_goals (first
      | ((simp [hg, hcs, ho] at hcase); done)
      | (refine ⟨⟨.docker .generic, ?_⟩, ?_, ?_, ?_⟩ <;>
          simp +decide [createWorkspaceContainer, pullImageIfNeeded, firstErr3,
            cleanupWorkspace, removeContainerP, removeNetworkP, removeVolumeP, recordEv,
            findContainer, updateContainer, himg, hfi, hnet, hv1, hv2, hg, hcs, ho,
            gitImage, codeServerImage, opencodeImage, apply_ite, ite_self]))

/-- C8 witness: a failing first pull evaluated on the empty world. -/
theorem c8_parallel_pulls_witness :
    (createWorkspaceContainer cfgW1 { noFaults with pullGit := true } stEmpty).2.events.take 3
      = [.ensureImage gitImage, .ensureImage codeServerImage, .ensureImage opencodeImage] ∧
    (createWorkspaceContainer cfgW1 { noFaults with pullGit := true } stEmpty).2.containers
      = stEmpty.containers := by
  have h := c8_parallel_pulls cfgW1 { noFaults with pullGit := true } stEmpty
    rfl rfl (by decide)
  exact ⟨h.1, (h.2 (Or.inl rfl)).2.1⟩

/-! ### Claim C3 (confirmed) -/

/-- C3: on a world whose other workspaces do not reference this
workspace's resources, a second fault-free `removeWorkspaceContainer`
after a completed first one still reports success, and afterwards zero
runtime resources (containers, network, volumes) bearing the identifier
remain; moreover stop, start and remove all report success on any world
in which the targeted resources no longer exist, under any fault
schedule. -/
theorem c3_remove_idempotent (workspaceId : String) (s : St)
    (hs : wellScoped workspaceId s) :
    (removeWorkspaceContainer workspaceId noFaults s).1 = .ok { success := true } ∧
    (removeWorkspaceContainer workspaceId noFaults
        (removeWorkspaceContainer workspaceId noFaults s).2).1 = .ok { success := true } ∧
    noWsResources workspaceId
      (removeWorkspaceContainer workspaceId noFaults
        (removeWorkspaceContainer workspaceId noFaults s).2).2 ∧
    (∀ (f : Faults) (s' : St), noWsResources workspaceId s' →
        (stopWorkspaceContainer workspaceId f s').1 = .ok { success := true } ∧
        (startWorkspaceContainer workspaceId f s').1 = .ok { success := true } ∧
        (removeWorkspaceContainer workspaceId f s').1 = .ok { success := true }) := by
  refine ⟨rfl, rfl, ?_, fun f s' _ => ⟨rfl, rfl, rfl⟩⟩
  exact remove_noFaults_clean _ _ (remove_preserves_wellScoped _ _ hs)

/-- C3 witness: the double removal evaluated on the concrete provisioned
workspace world. -/
theorem c3_remove_idempotent_witness :
    wellScoped "w1" stRunningW1 ∧
    noWsResources "w1"
      (removeWorkspaceContainer "w1" noFaults
        (removeWorkspaceContainer "w1" noFaults stRunningW1).2).2 :=
  ⟨by decide, (c3_remove_idempotent "w1" stRunningW1 (by decide)).2.2.1⟩

/-! ### Further state projections (steps that leave a component untouched) -/

@[simp]
theorem pullImageIfNeeded_containers (img : String) (fl : Bool) (s : St) :
    (pullImageIfNeeded img fl s).2.containers = s.containers := by
  simp only [pullImageIfNeeded, recordEv]
  repeat' split
  all_goals rfl

@[simp]
theorem pullImageIfNeeded_networks (img : String) (fl : Bool) (s : St) :
    (pullImageIfNeeded img fl s).2.networks = s.networks := by
  simp only [pullImageIfNeeded, recordEv]
  repeat' split
  all_goals rfl

@[simp]
theorem pullImageIfNeeded_volumes (img : String) (fl : Bool) (s : St) :
    (pullImageIfNeeded img fl s).2.volumes = s.volumes := by
  simp only [pullImageIfNeeded, recordEv]
  repeat' split
  all_goals rfl

@[simp]
theorem createVolumeP_containers (n : String) (fl : Bool) (s : St) :
    (createVolumeP n fl s).2.containers = s.containers := by
  simp only [createVolumeP, recordEv]
  repeat' split
  all_goals rfl

@[simp]
theorem createVolumeP_networks (n : String) (fl : Bool) (s : St) :
    (createVolumeP n fl s).2.networks = s.networks := by
  simp only [createVolumeP, recordEv]
  repeat' split
  all_goals rfl

@[simp]
theorem createNetworkP_containers (n : String) (fl : Bool) (s : St) :
    (createNetworkP n fl s).2.containers = s.containers := by
  simp only [createNetworkP, recordEv]
  repeat' split
  all_goals rfl

@[simp]
theorem createNetworkP_volumes (n : String) (fl : Bool) (s : St) :
    (createNetworkP n fl s).2.volumes = s.volumes := by
  simp only [createNetworkP, recordEv]
  repeat' split
  all_goals rfl

@[simp]
theorem createContainerP_networks (c : Container) (fl : Bool) (s : St) :
    (createContainerP c fl s).2.networks = s.networks := by
  simp only [createContainerP, recordEv]
  repeat' split
  all_goals rfl

@[simp]
theorem createContainerP_volumes (c : Container) (fl : Bool) (s : St) :
    (createContainerP c fl s).2.volumes = s.volumes := by
  simp only [createContainerP, recordEv]
  repeat' split
  all_goals rfl

@[simp]
theorem waitContainerP_containers (n : String) (code : Nat) (s : St) :
    (waitContainerP n code s).2.containers = s.containers := by
  simp only [waitContainerP, recordEv]
  repeat' split
  all_goals rfl

@[simp]
theorem waitContainerP_networks (n : String) (code : Nat) (s : St) :
    (waitContainerP n code s).2.networks = s.networks := by
  simp only [waitContainerP, recordEv]
  repeat' split
  all_goals rfl

@[simp]
theorem waitContainerP_volumes (n : String) (code : Nat) (s : St) :
    (waitContainerP n code s).2.volumes = s.volumes := by
  simp only [waitContainerP, recordEv]
  repeat' split
  all_goals rfl

@[simp]
theorem connectNetworkP_networks (net ctr : String) (fl : Bool) (s : St) :
    (connectNetworkP net ctr fl s).2.networks = s.networks := by
  simp only [connectNetworkP, recordEv, updateContainer]
  repeat' split
  all_goals rfl

@[simp]
theorem connectNetworkP_volumes (net ctr : String) (fl : Bool) (s : St) :
    (connectNetworkP net ctr fl s).2.volumes = s.volumes := by
  simp only [connectNetworkP, recordEv, updateContainer]
  repeat' split
  all_goals rfl

/-! ### Success characterizations of the creation and start steps -/

theorem startContainerP_ok {n : String} {fl : Bool} {s : St} {u : Unit}
    (h : (startContainerP n fl s).1 = .ok u) :
    ∃ c ∈ (startContainerP n fl s).2.containers, c.name = n ∧ c.running = true := by
  by_cases hfl : fl = true
  · simp [startContainerP, recordEv, hfl] at h
  · cases hfind : List.find? (fun c => c.name == n) s.containers with
    | none =>
      simp [startContainerP, recordEv, findContainer, hfl, hfind] at h
    | some c0 =>
      have hmem := List.mem_of_find?_eq_some hfind
      have hp := List.find?_some hfind
      simp only [] at hp
      simp only [startContainerP, recordEv, findContainer, hfl, hfind, updateContainer,
        Bool.false_eq_true, if_false, Option.isSome_some, if_true]
      refine ⟨{ c0 with running := true }, ?_, by simpa using hp, rfl⟩
      simp only [List.mem_map]
      exact ⟨c0, hmem, by simp [hp]⟩

theorem startContainerP_preserves {c : Container} {n : String} {fl : Bool} {s : St}
    (hc : c ∈ s.containers) (hne : ¬ (c.name == n) = true) :
    c ∈ (startContainerP n fl s).2.containers := by
  simp only [startContainerP, recordEv, updateContainer]
  repeat' split
  · exact hc
  · exact List.mem_map.mpr ⟨c, hc, by simp [hne]⟩
  · exact hc

theorem createVolumeP_ok_mem {n : String} {fl : Bool} {s : St} {u : Unit}
    (h : (createVolumeP n fl s).1 = .ok u) :
    n ∈ (createVolumeP n fl s).2.volumes := by
  by_cases hfl : fl = true
  · simp [createVolumeP, recordEv, hfl] at h
  · by_cases hmem : n ∈ s.volumes
    · simp [createVolumeP, recordEv, hfl, hmem]
    · simp [createVolumeP, recordEv, hfl, hmem]

theorem createVolumeP_mem_preserve {n m : String} {fl : Bool} {s : St}
    (hm : m ∈ s.volumes) : m ∈ (createVolumeP n fl s).2.volumes := by
  simp only [createVolumeP, recordEv]
  repeat' split
  all_goals simp [List.mem_append, hm]

theorem createNetworkP_ok_mem {n : String} {fl : Bool} {s : St} {u : Unit}
    (h : (createNetworkP n fl s).1 = .ok u) :
    n ∈ (createNetworkP n fl s).2.networks := by
  by_cases hfl : fl = true
  · simp [createNetworkP, recordEv, hfl] at h
  · simp [createNetworkP, recordEv, hfl]

theorem string_append_ne_left (a b x y : String) (i : Nat)
    (ha : i < a.data.length) (hb : i < b.data.length)
    (hne : a.data[i]? ≠ b.data[i]?) : a ++ x ≠ b ++ y := by
  intro h
  have hd := congrArg String.data h
  rw [String.data_append, String.data_append] at hd
  exact ne_of_append_head _ _ _ _ i ha hb hne hd

/-- The provisioner itself never writes a record status: its trace adds
no `statusWrite` events. -/
theorem create_no_statusWrites (cfg : WorkspaceContainerConfig) (f : Faults) (s : St) :
    (createWorkspaceContainer cfg f s).2.events.filterMap statusOf
      = s.events.filterMap statusOf := by
  simp only [createWorkspaceContainer]
  repeat' split
  all_goals simp [statusOf]

set_option maxHeartbeats 1600000 in
/-- When provisioning returns successfully, both service containers
exist and are running, and the isolated network and both volumes exist,
in the resulting world. -/
theorem create_ok_resources (cfg : WorkspaceContainerConfig) (f : Faults) (s : St)
    (hok : ∃ h, (createWorkspaceContainer cfg f s).1 = .ok h) :
    (∃ c ∈ (createWorkspaceContainer cfg f s).2.containers,
        c.name = codeServerNameOf cfg.workspaceId ∧ c.running = true) ∧
    (∃ c ∈ (createWorkspaceContainer cfg f s).2.containers,
        c.name = opencodeNameOf cfg.workspaceId ∧ c.running = true) ∧
    networkNameOf cfg.workspaceId ∈ (createWorkspaceContainer cfg f s).2.networks ∧
    volumeNameOf cfg.workspaceId ∈ (createWorkspaceContainer cfg f s).2.volumes ∧
    opencodeVolumeOf cfg.workspaceId ∈ (createWorkspaceContainer cfg f s).2.volumes := by
  obtain ⟨hres, hok⟩ := hok
  simp only [createWorkspaceContainer] at hok ⊢
  repeat' split at hok
  all_goals (try (simp at hok))
  simp_all only [ne_eq, if_false, if_true]
  refine ⟨?_, ?_, ?_, ?_, ?_⟩
  · obtain ⟨c, hc, hname, hrun⟩ :=
      @startContainerP_ok (codeServerNameOf cfg.workspaceId) f.startCodeServer _ _
        (by assumption)
    refine ⟨c, startContainerP_preserves hc ?_, hname, hrun⟩
    rw [beq_iff_eq, hname]
    unfold codeServerNameOf opencodeNameOf
    exact string_append_ne_left _ _ _ _ 0 (by decide) (by decide) (by decide)
  · exact @startContainerP_ok (opencodeNameOf cfg.workspaceId) f.startOpencode _ _
      (by assumption)
  · simp only [startContainerP_networks, connectNetworkP_networks,
      createContainerP_networks, removeContainerP_networks, waitContainerP_networks]
    exact createNetworkP_ok_mem (by assumption)
  · simp only [startContainerP_volumes, connectNetworkP_volumes,
      createContainerP_volumes, removeContainerP_volumes, waitContainerP_volumes,
      createNetworkP_volumes]
    exact createVolumeP_mem_preserve (createVolumeP_ok_mem (by assumption))
  · simp only [startContainerP_volumes, connectNetworkP_volumes,
      createContainerP_volumes, removeContainerP_volumes, waitContainerP_volumes,
      createNetworkP_volumes]
    exact createVolumeP_ok_mem (by assumption)

@[simp]
theorem dbSetStatus_containers (st : WsStatus) (s : St) :
    (dbSetStatus st s).containers = s.containers := rfl

@[simp]
theorem dbSetStatus_networks (st : WsStatus) (s : St) :
    (dbSetStatus st s).networks = s.networks := rfl

@[simp]
theorem dbSetStatus_volumes (st : WsStatus) (s : St) :
    (dbSetStatus st s).volumes = s.volumes := rfl

@[simp]
theorem dbSetStatus_wsStatus (st : WsStatus) (s : St) :
    (dbSetStatus st s).wsStatus = some st := rfl

/-! ### Claim C5 (confirmed) -/

/-- C5: for every create-workspace request, `pending` and `starting` are
recorded before any runtime call appears in the trace; the record ends
`running` exactly when provisioning returned successfully (the write
being the trace's last entry, after both service containers were
started) and `error` when provisioning failed (written after the
best-effort cleanup, as the trace's last entry); the status-write
sequence is pending, starting, then running or error; and a record
showing `running` implies both service containers exist and run and the
isolated network and both volumes exist. -/
theorem c5_status_lifecycle (cfg : WorkspaceContainerConfig) (f : Faults) (s : St)
    (hev : s.events = []) :
    (postHandler cfg f s).2.events.take 2
      = [.statusWrite .pending, .statusWrite .starting] ∧
    (∀ h, (postHandler cfg f s).1 = .ok h →
        (postHandler cfg f s).2.wsStatus = some .running ∧
        (postHandler cfg f s).2.events.getLast? = some (.statusWrite .running)) ∧
    (∀ e, (postHandler cfg f s).1 = .error e →
        (postHandler cfg f s).2.wsStatus = some .error ∧
        (postHandler cfg f s).2.events.getLast? = some (.statusWrite .error)) ∧
    ((postHandler cfg f s).2.wsStatus = some .running →
        (∃ c ∈ (postHandler cfg f s).2.containers,
            c.name = codeServerNameOf cfg.workspaceId ∧ c.running = true) ∧
        (∃ c ∈ (postHandler cfg f s).2.containers,
            c.name = opencodeNameOf cfg.workspaceId ∧ c.running = true) ∧
        networkNameOf cfg.workspaceId ∈ (postHandler cfg f s).2.networks ∧
        volumeNameOf cfg.workspaceId ∈ (postHandler cfg f s).2.volumes ∧
        opencodeVolumeOf cfg.workspaceId ∈ (postHandler cfg f s).2.volumes) ∧
    ((postHandler cfg f s).2.events.filterMap statusOf
        = [WsStatus.pending, WsStatus.starting, WsStatus.running] ∨
     (postHandler cfg f s).2.events.filterMap statusOf
        = [WsStatus.pending, WsStatus.starting, WsStatus.error]) := by
  have hs2ev : (dbSetStatus .starting (dbSetStatus .pending s)).events
      = [.statusWrite .pending, .statusWrite .starting] := by
    simp [hev]
  obtain ⟨t, ht⟩ := create_events_extends cfg f (dbSetStatus .starting (dbSetStatus .pending s))
  have hsw := create_no_statusWrites cfg f (dbSetStatus .starting (dbSetStatus .pending s))
  rcases hr : (createWorkspaceContainer cfg f
      (dbSetStatus .starting (dbSetStatus .pending s))).1 with e | h
  · -- provisioning failed: status error written last, after cleanup
    have hpost : postHandler cfg f s
        = (.error e, dbSetStatus .error
            (createWorkspaceContainer cfg f (dbSetStatus .starting (dbSetStatus .pending s))).2) := by
      simp [postHandler, hr]
    rw [hpost]
    refine ⟨?_, ?_, ?_, ?_, ?_⟩
    · simp [ht, hs2ev, hev]
    · intro h hcontra
      simp at hcontra
    · intro e' _
      refine ⟨rfl, ?_⟩
      simp [List.getLast?_append]
    · intro hcontra
      simp at hcontra
    · right
      rw [dbSetStatus_events, List.filterMap_append, hsw, hs2ev]
      simp [statusOf]
  · -- provisioning succeeded: status running written last, resources present
    have hpost : postHandler cfg f s
        = (.ok h, dbSetStatus .running
            (createWorkspaceContainer cfg f (dbSetStatus .starting (dbSetStatus .pending s))).2) := by
      simp [postHandler, hr]
    rw [hpost]
    have hres := create_ok_resources cfg f (dbSetStatus .starting (dbSetStatus .pending s))
      ⟨h, hr⟩
    refine ⟨?_, ?_, ?_, ?_, ?_⟩
    · simp [ht, hs2ev, hev]
    · intro h' _
      refine ⟨rfl, ?_⟩
      simp [List.getLast?_append]
    · intro e hcontra
      simp at hcontra
    · intro _
      simpa using hres
    · left
      rw [dbSetStatus_events, List.filterMap_append, hsw, hs2ev]
      simp [statusOf]

/-- C5 witness: the fault-free run on the empty world, evaluated
concretely. -/
theorem c5_status_lifecycle_witness :
    (postHandler cfgW1 noFaults stEmpty).2.events.take 2
      = [.statusWrite .pending, .statusWrite .starting] ∧
    ((postHandler cfgW1 noFaults stEmpty).2.events.filterMap statusOf
        = [WsStatus.pending, WsStatus.starting, WsStatus.running] ∨
     (postHandler cfgW1 noFaults stEmpty).2.events.filterMap statusOf
        = [WsStatus.pending, WsStatus.starting, WsStatus.error]) := by
  have h := c5_status_lifecycle cfgW1 noFaults stEmpty rfl
  exact ⟨h.1, h.2.2.2.2⟩

end OWA
